import Mathlib

/-!
# Verification of the torchgeo GlobBiomass / EnviroAtlas dataset adapters

A shallow embedding of `torchgeo/datasets/globbiomass.py` and
`torchgeo/datasets/enviroatlas.py`.  Timestamps are modelled as `Int`
nanosecond counts (the representation pandas uses), spatial coordinates as
`Int`, raster contents as lists of channels of pixels.  External library
behaviour (pandas `Interval.overlaps`, geopandas `.cx`, numpy
`concatenate` and fancy indexing, Python `str.replace` and slicing) is
embedded from the libraries' documented semantics; raster I/O and
coordinate transformation (rasterio / pyproj), which the repository
delegates wholesale, are abstracted as environment functions.
-/

namespace TorchGeo

/-- Python exception kinds that the embedded code can raise. -/
inductive PyErr where
  | indexError
  | valueError
  | keyError
  | runtimeError
  | assertionError
  | datasetNotFound
  deriving DecidableEq, Repr

/-- A pandas `Interval`: endpoints (timestamps as integer nanoseconds) plus
closedness flags for each side. -/
structure PInterval where
  left : Int
  right : Int
  closedLeft : Bool
  closedRight : Bool
  deriving DecidableEq, Repr

/-- Semantics of `pandas.Interval.overlaps` (also used elementwise by
`IntervalIndex.overlaps`): two intervals overlap iff they share a common
point, endpoints included only when closed on that side.  This is the
formula pandas implements: `op1(self.left, other.right) and
op2(other.left, self.right)` where an operator is `<=` when both relevant
sides are closed and `<` otherwise. -/
def PInterval.overlaps (s o : PInterval) : Bool :=
  (if s.closedLeft && o.closedRight then decide (s.left ≤ o.right)
   else decide (s.left < o.right)) &&
  (if o.closedLeft && s.closedRight then decide (o.left ≤ s.right)
   else decide (o.left < s.right))

/-- Value of `pd.Timestamp.min` as an integer nanosecond count. -/
def pdTimestampMin : Int := -9223372036854775807

/-- Value of `pd.Timestamp.max` as an integer nanosecond count. -/
def pdTimestampMax : Int := 9223372036854775807

/-- An axis-aligned rectangle in projected coordinates: the bounding box of
a tile geometry or of a query. -/
structure Rect where
  xmin : Int
  ymin : Int
  xmax : Int
  ymax : Int
  deriving DecidableEq, Repr

/-- Closed-rectangle intersection test.  Geopandas' `.cx[x0:x1, y0:y1]`
indexer keeps the rows whose geometry intersects the query bounding box;
shapely's `intersects` counts boundary contact. -/
def Rect.intersects (a b : Rect) : Bool :=
  decide (a.xmin ≤ b.xmax) && decide (b.xmin ≤ a.xmax) &&
  decide (a.ymin ≤ b.ymax) && decide (b.ymin ≤ a.ymax)

/-- Modelled from the spec: the result of `GeoDataset._disambiguate_slice`
(not part of the sources shown) applied to a query.  The spec promises an
"arbitrary bounding box and time range" query of the form
`[xmin:xmax:xres, ymin:ymax:yres, tmin:tmax:tres]`; we carry the
disambiguated bounds directly. -/
structure GeoSlice where
  xstart : Int
  xstop : Int
  ystart : Int
  ystop : Int
  tstart : Int
  tstop : Int
  tstep : Nat
  deriving DecidableEq, Repr

/-- The spatial bounding box of a query, as used by `.cx` and
`shapely.geometry.box(x.start, y.start, x.stop, y.stop)`. -/
def GeoSlice.rect (q : GeoSlice) : Rect :=
  ⟨q.xstart, q.ystart, q.xstop, q.ystop⟩

/-- The query interval `pd.Interval(t.start, t.stop)` built in
`__getitem__`: pandas' default is `closed='right'`, i.e. the interval
`(t.start, t.stop]`. -/
def GeoSlice.interval (q : GeoSlice) : PInterval :=
  ⟨q.tstart, q.tstop, false, true⟩

/-- Python list slicing `l[::k]` for a positive step `k`: keep the
elements at indices `0, k, 2k, ...` in order. -/
def ilocStep (l : List α) (k : Nat) : List α :=
  (l.enum.filter (fun p => p.1 % k == 0)).map (·.2)

/-- A raster channel: a row-major list of pixel values. -/
abbrev Chan := List Nat

/-- A raster tensor: a list of channels (the leading `dim 0` of a torch
tensor / numpy array). -/
abbrev Tensor := List Chan

/-- Semantics of `numpy.concatenate(ts, axis=0)`: concatenates the
channel lists; raises `ValueError` when the input list is empty ("need at
least one array to concatenate"). -/
def npConcatenate (ts : List Tensor) : Except PyErr Tensor :=
  if ts.isEmpty then .error .valueError else .ok ts.flatten

/-- Python `str.replace(pat, rep)` on character lists: replaces all
non-overlapping occurrences left to right.  The fuel argument bounds the
recursion by the length of the string. -/
def listReplace (pat rep : List Char) : Nat → List Char → List Char
  | 0, s => s
  | _ + 1, [] => []
  | fuel + 1, c :: rest =>
    if pat.isPrefixOf (c :: rest) ∧ pat ≠ [] then
      rep ++ listReplace pat rep fuel ((c :: rest).drop pat.length)
    else
      c :: listReplace pat rep fuel rest

/-- Python `s.replace(pat, rep)` on strings. -/
def strReplace (s pat rep : String) : String :=
  ⟨listReplace pat.toList rep.toList s.toList.length s.toList⟩

section SpatioTemporalFilter

variable {α : Type}

/-- The temporal filter of `__getitem__`:
`index.iloc[index.index.overlaps(pd.Interval(t.start, t.stop))]`,
keeping the rows whose datetime interval overlaps the query interval. -/
def temporalFilter (interval : α → PInterval) (idx : List α) (q : GeoSlice) :
    List α :=
  idx.filter (fun e => (interval e).overlaps q.interval)

/-- The full row-filtering pipeline shared by both `__getitem__`
implementations: temporal overlap filter, then `.iloc[::t.step]`, then the
spatial `.cx[x.start:x.stop, y.start:y.stop]` filter. -/
def spatioTemporalFilter (interval : α → PInterval) (geom : α → Rect)
    (idx : List α) (q : GeoSlice) : List α :=
  ((ilocStep (temporalFilter interval idx q) q.tstep).filter
    (fun e => (geom e).intersects q.rect))

end SpatioTemporalFilter

/-- Application of the optional `transforms` callable to a sample, as done
at the end of both `__getitem__` implementations. -/
def applyTransforms (t : Option (α → α)) (x : α) : α :=
  match t with
  | none => x
  | some f => f x

namespace GlobBiomass

/-- The class attribute `measurements = ('agb', 'gsv')`. -/
def measurements : List String := ["agb", "gsv"]

/-- The class attribute `is_image = False` (inherited consumers decode the
rasters as masks, not images). -/
def is_image : Bool := false

/-- Torch dtypes that appear in the embedded classes. -/
inductive TorchDType where
  | float32
  | uint8
  deriving DecidableEq, Repr

/-- The class attribute `dtype = torch.float32` (pixelwise regression). -/
def dtype : TorchDType := .float32

/-- The `assert measurement in self.measurements` guard at the top of
`GlobBiomass.__init__`: a failing `assert` raises `AssertionError`. -/
def initCheck (measurement : String) : Except PyErr Unit :=
  if measurements.contains measurement then .ok () else .error .assertionError

/-- One row of the dataset's spatial index: the datetime interval, the
tile geometry (tiles are rectangular rasters) and the `filepath` column. -/
structure Entry where
  interval : PInterval
  geom : Rect
  filepath : String
  deriving DecidableEq, Repr

/-- The sample dictionary returned by `GlobBiomass.__getitem__`. -/
structure Sample where
  mask : Tensor
  crs : String
  bounds : GeoSlice
  deriving DecidableEq, Repr

/-- The mutable attributes of a `GlobBiomass` instance that
`__getitem__` can read (`self.index`, `self.crs`, `self.transforms`). -/
structure State where
  index : List Entry
  crs : String
  transforms : Option (Sample → Sample)

/-- Raster-reading environment: `mosaic paths query` abstracts the pixel
content that merging the given files cropped to the query produces. -/
structure Env where
  mosaic : List String → GeoSlice → Chan

/-- Modelled from the spec: `RasterDataset._merge_files` (not among the
sources shown) mosaics the given source files, reprojected and cropped to
the query geometry, into a single tensor; GlobBiomass estimate and
uncertainty maps are single-channel. -/
def mergeFiles (env : Env) (paths : List String) (q : GeoSlice) : Tensor :=
  [env.mosaic paths q]

/-- The `lambda x: x.replace('.tif', '_err.tif')` applied to each
filepath to locate the standard-error raster. -/
def errPath (p : String) : String :=
  strReplace p ".tif" "_err.tif"

/-- The row-filtering pipeline of `GlobBiomass.__getitem__` (temporal
overlap, `iloc[::t.step]`, spatial `.cx`). -/
def tileSet (s : State) (q : GeoSlice) : List Entry :=
  spatioTemporalFilter Entry.interval Entry.geom s.index q

/-- Embedding of `GlobBiomass.__getitem__`.  The method writes no
attribute of `self`, so the state it passes back is its input state.
`pd.Interval(t.start, t.stop)` itself raises `ValueError` when
`t.start > t.stop`. -/
def getitem (env : Env) (s : State) (q : GeoSlice) :
    State × Except PyErr Sample :=
  (s,
    if q.tstart > q.tstop then .error .valueError
    else
      let idx := tileSet s q
      if idx.isEmpty then .error .indexError
      else
        let mask := mergeFiles env (idx.map Entry.filepath) q
        let stdErrorPaths := (idx.map Entry.filepath).map errPath
        let stdErrMask := mergeFiles env stdErrorPaths q
        let m := mask ++ stdErrMask
        .ok (applyTransforms s.transforms ⟨m, s.crs, q⟩))

/-- The class attribute `md5s`: the expected MD5 digest of each zip
archive, keyed by file name. -/
def md5s : List (String × String) :=
  [("N00E020_agb.zip", "bd83a3a4c143885d1962bde549413be6"),
   ("N00E020_gsv.zip", "da5ddb88e369df2d781a0c6be008ae79"),
   ("N00E060_agb.zip", "85eaca95b939086cc528e396b75bd097"),
   ("N00E060_gsv.zip", "ec84174697c17ca4db2967374446ab30"),
   ("N00E100_agb.zip", "c50c7c996615c1c6f19cb383ef11812a"),
   ("N00E100_gsv.zip", "6e0ff834db822d3710ed40d00a200e8f"),
   ("N00E140_agb.zip", "73f0b44b9e137789cefb711ef9aa281b"),
   ("N00E140_gsv.zip", "43be3dd4563b63d12de006d240ba5edf"),
   ("N00W020_agb.zip", "4fb979732f0a22cc7a2ca3667698084b"),
   ("N00W020_gsv.zip", "ac5bbeedaa0f94a5e01c7a86751d6891"),
   ("N00W060_agb.zip", "59da0b32b08fbbcd2dd76926a849562b"),
   ("N00W060_gsv.zip", "5ca9598f621a7d10ab1d623ee5b44aa6"),
   ("N00W100_agb.zip", "a819b75a39e8d4d37b15745c96ea1e35"),
   ("N00W100_gsv.zip", "71aad3669d522f7190029ec33350831a"),
   ("N00W180_agb.zip", "5a1d7486d8310fbaf4980a76e9ffcd78"),
   ("N00W180_gsv.zip", "274be7dbb4e6d7563773cc302129a9c7"),
   ("N40E020_agb.zip", "38bc7170f94734b365d614a566f872e7"),
   ("N40E020_gsv.zip", "b52c1c777d68c331cc058a273530536e"),
   ("N40E060_agb.zip", "1d94ad59f3f26664fefa4d7308b63f05"),
   ("N40E060_gsv.zip", "3b68786b7641400077ef340a7ef748f4"),
   ("N40E100_agb.zip", "3ccb436047c0db416fb237435645989c"),
   ("N40E100_gsv.zip", "c44efe9e7ce2ae0f2e39b0db10f06c71"),
   ("N40E140_agb.zip", "35ea51da229af1312ba4aaafc0dbd5d6"),
   ("N40E140_gsv.zip", "8431828708c84263a4971a8779864f69"),
   ("N40W020_agb.zip", "38345a1826719301ab1a0251b4835cc2"),
   ("N40W020_gsv.zip", "5e136b7c2f921cd425cb5cc5669e7693"),
   ("N40W060_agb.zip", "e3f54df1d188c0132ecf5aef3dc54ca6"),
   ("N40W060_gsv.zip", "09093d78ffef0220cb459a88e61e3093"),
   ("N40W100_agb.zip", "cc21ce8793e5594dc7a0b45f0d0f1466"),
   ("N40W100_gsv.zip", "21be1398df88818d04dcce422e2010a6"),
   ("N40W140_agb.zip", "64665f53fad7386abb1cf4a44a1c8b1a"),
   ("N40W140_gsv.zip", "b59405219fc807cbe745789fbb6936a6"),
   ("N40W180_agb.zip", "f83ef786da8333ee739e49be108994c1"),
   ("N40W180_gsv.zip", "1f2eb8912b1a204eaeb2858b7e398baa"),
   ("N80E020_agb.zip", "7f7aed44802890672bd908e28eda6f15"),
   ("N80E020_gsv.zip", "6e285eec66306e56dc3a81adc0da2a27"),
   ("N80E060_agb.zip", "55e7031e0207888f25f27efa9a0ab8f4"),
   ("N80E060_gsv.zip", "8d14c7f61ad2aed527e124f9aacae30c"),
   ("N80E100_agb.zip", "562eafd2813ff06e47284c48324bb1c7"),
   ("N80E100_gsv.zip", "73067e0fac442c330ae2294996280042"),
   ("N80E140_agb.zip", "1b51ce0df0dba925c5ef2149bebca115"),
   ("N80E140_gsv.zip", "37ee3047d281fc34fa3a9e024a8317a1"),
   ("N80W020_agb.zip", "60dde6adc0dfa219a34c976367f571c0"),
   ("N80W020_gsv.zip", "b7be4e97bb4179710291ee8dee27f538"),
   ("N80W060_agb.zip", "db7d35d0375851c4a181c3a8fa8b480e"),
   ("N80W060_gsv.zip", "d36ffcf4622348382454c979baf53234"),
   ("N80W100_agb.zip", "c0dbf53e635dabf9a4d7d1756adeda69"),
   ("N80W100_gsv.zip", "abdeaf0d65da1216c326b6d0ce27d61b"),
   ("N80W140_agb.zip", "7719c0efd23cd86215fea0285fd0ea4a"),
   ("N80W140_gsv.zip", "499969bed381197ee9427a2e3f455a2e"),
   ("N80W180_agb.zip", "e3a163d1944e1989a07225d262a01c6f"),
   ("N80W180_gsv.zip", "5d39ec0368cfe63c40c66d61ae07f577"),
   ("S40E140_agb.zip", "263eb077a984117b41cc7cfa0c32915b"),
   ("S40E140_gsv.zip", "e0ffad85fbade4fb711cc5b3c7543898"),
   ("S40W060_agb.zip", "2cbf6858c48f36add896db660826829b"),
   ("S40W060_gsv.zip", "04dbfd4aca0bd2a2a7d8f563c8659252"),
   ("S40W100_agb.zip", "ae89f021e7d9c2afea433878f77d1dd6"),
   ("S40W100_gsv.zip", "b6aa3f276e1b51dade803a71df2acde6")]

/-- Dictionary lookup `self.md5s[filename]`; a missing key raises
`KeyError` at the caller. -/
def md5Lookup (name : String) : Option String :=
  (md5s.find? (fun p => p.1 == name)).map (·.2)

/-- Filesystem environment for `GlobBiomass._verify`:  whether
`self.files` is non-empty (extracted rasters found), the basenames of the
zip archives matched by `glob('*_{measurement}.zip')`, and the result of
`check_integrity(zipfile, md5)` for each archive. -/
structure VerifyEnv where
  filesFound : Bool
  zips : List String
  integrityOk : String → String → Bool

/-- Side effects that `_verify` can perform. -/
inductive VerifyAction where
  | extract (zip : String)
  deriving DecidableEq, Repr

/-- The per-archive loop of `GlobBiomass._verify`: for each matched zip,
when `checksum` is set the MD5 is looked up and checked first —
`RuntimeError('Dataset found, but corrupted.')` aborts before that
archive is extracted — and otherwise the archive is extracted.  Returns
the extractions performed together with the terminal error, if any. -/
def verifyZips (env : VerifyEnv) (checksum : Bool) :
    List String → List VerifyAction × Option PyErr
  | [] => ([], none)
  | z :: rest =>
    if checksum then
      match md5Lookup z with
      | none => ([], some .keyError)
      | some m =>
        if env.integrityOk z m then
          let r := verifyZips env checksum rest
          (.extract z :: r.1, r.2)
        else ([], some .runtimeError)
    else
      let r := verifyZips env checksum rest
      (.extract z :: r.1, r.2)

/-- Embedding of `GlobBiomass._verify`: extracted files short-circuit,
then zip archives are checked/extracted, then `DatasetNotFoundError`. -/
def verify (env : VerifyEnv) (checksum : Bool) :
    List VerifyAction × Option PyErr :=
  if env.filesFound then ([], none)
  else if !env.zips.isEmpty then verifyZips env checksum env.zips
  else ([], some .datasetNotFound)

end GlobBiomass

namespace EnviroAtlas

/-- The class attribute `valid_prior_layers`. -/
def valid_prior_layers : List String :=
  ["prior", "prior_no_osm_no_buildings"]

/-- The class attribute `valid_layers`. -/
def valid_layers : List String :=
  ["naip", "nlcd", "roads", "water", "waterways", "waterbodies",
   "buildings", "lc"] ++ valid_prior_layers

/-- The layer names routed to `sample['image']` by the branch
`if layer in ['naip', 'buildings', 'roads', 'waterways', 'waterbodies',
'water']` of `__getitem__` (note that `'nlcd'` is absent). -/
def imageLayerNames : List String :=
  ["naip", "buildings", "roads", "waterways", "waterbodies", "water"]

/-- The keys of the class attribute `p_transformers`: the four
precomputed pyproj transformers out of `epsg:3857`.  Looking up any other
CRS string raises `KeyError`. -/
def pTransformerKeys : List String :=
  ["epsg:26917", "epsg:26918", "epsg:26914", "epsg:26912"]

/-- The class attribute `raw_enviroatlas_to_idx_map`: a 93-entry `uint8`
array mapping the raw high-resolution land-cover codes
`[0, 10, 20, 30, 40, 52, 70, 80, 82, 91, 92]` to sequential labels
`[0, ..., 10]`. -/
def raw_enviroatlas_to_idx_map : List Nat :=
  [0, 0, 0, 0, 0, 0, 0, 0, 0, 0,
   1, 0, 0, 0, 0, 0, 0, 0, 0, 0,
   2, 0, 0, 0, 0, 0, 0, 0, 0, 0,
   3, 0, 0, 0, 0, 0, 0, 0, 0, 0,
   4, 0, 0, 0, 0, 0, 0, 0, 0, 0,
   0, 0, 5, 0, 0, 0, 0, 0, 0, 0,
   0, 0, 0, 0, 0, 0, 0, 0, 0, 0,
   6, 0, 0, 0, 0, 0, 0, 0, 0, 0,
   7, 0, 8, 0, 0, 0, 0, 0, 0, 0,
   0, 9, 10]

/-- Numpy fancy indexing `raw_enviroatlas_to_idx_map[p]` for one pixel:
an index beyond the 93 entries raises `IndexError`. -/
def mapPixel (p : Nat) : Except PyErr Nat :=
  match raw_enviroatlas_to_idx_map.get? p with
  | some v => .ok v
  | none => .error .indexError

/-- Numpy fancy indexing applied to one channel: every pixel is remapped,
and any out-of-range pixel raises `IndexError`. -/
def mapChan : Chan → Except PyErr Chan
  | [] => .ok []
  | p :: ps =>
    match mapPixel p, mapChan ps with
    | .ok v, .ok vs => .ok (v :: vs)
    | .error err, _ => .error err
    | _, .error err => .error err

/-- Numpy fancy indexing `self.raw_enviroatlas_to_idx_map[data]` applied
to a whole raster tensor. -/
def mapLC : Tensor → Except PyErr Tensor
  | [] => .ok []
  | c :: cs =>
    match mapChan c, mapLC cs with
    | .ok c', .ok cs' => .ok (c' :: cs')
    | .error err, _ => .error err
    | _, .error err => .error err

/-- The per-row filename columns built by `EnviroAtlas.__init__` from the
geojson properties: one raster file per layer. -/
structure Files where
  naip : String
  nlcd : String
  roads : String
  water : String
  waterways : String
  waterbodies : String
  buildings : String
  lc : String
  prior_no_osm_no_buildings : String
  prior : String
  deriving DecidableEq, Repr

/-- Column lookup `filenames[layer]` on a row of the index.  Only the ten
layer names above occur (guaranteed by the `__init__` assertion on
`layers`). -/
def Files.get (f : Files) : String → String
  | "naip" => f.naip
  | "nlcd" => f.nlcd
  | "roads" => f.roads
  | "water" => f.water
  | "waterways" => f.waterways
  | "waterbodies" => f.waterbodies
  | "buildings" => f.buildings
  | "lc" => f.lc
  | "prior_no_osm_no_buildings" => f.prior_no_osm_no_buildings
  | "prior" => f.prior
  | _ => ""

/-- One row of the `EnviroAtlas` spatial index. -/
structure Entry where
  interval : PInterval
  geom : Rect
  files : Files
  deriving DecidableEq, Repr

/-- Raster and projection environment for `EnviroAtlas.__getitem__`:
`fileCRS fn` is `f.crs.to_string().lower()` for the opened raster,
`transformEnvelope crs box` is
`shapely.ops.transform(p_transformers[crs], box).envelope`, and
`readMask fn geom` is the `data` array returned by
`rasterio.mask.mask(f, [geom], crop=True, all_touched=True)`. -/
structure Env where
  fileCRS : String → String
  transformEnvelope : String → Rect → Rect
  readMask : String → Rect → Tensor

/-- The per-layer loop of `EnviroAtlas.__getitem__`.  The transformed
query geometry is computed only once — by the first layer, from that
layer's CRS — and carried in the `Option Rect` accumulator; each layer's
raster is cropped to that geometry, and the result appended to the image
or mask list according to the branch on the layer name (`'nlcd'` matches
no branch and is dropped; `'lc'` is remapped first). -/
def processLayers (env : Env) (priorAsInput : Bool) (files : Files)
    (qbox : Rect) :
    List String → Option Rect → List Tensor → List Tensor →
    Except PyErr (List Tensor × List Tensor)
  | [], _, img, msk => .ok (img, msk)
  | layer :: rest, qgt, img, msk =>
    let fn := files.get layer
    let dstCrs := env.fileCRS fn
    let gRes : Except PyErr Rect :=
      match qgt with
      | some g => .ok g
      | none =>
        if pTransformerKeys.contains dstCrs then
          .ok (env.transformEnvelope dstCrs qbox)
        else .error .keyError
    match gRes with
    | .error err => .error err
    | .ok g =>
      let data := env.readMask fn g
      if imageLayerNames.contains layer then
        processLayers env priorAsInput files qbox rest (some g)
          (img ++ [data]) msk
      else if valid_prior_layers.contains layer then
        if priorAsInput then
          processLayers env priorAsInput files qbox rest (some g)
            (img ++ [data]) msk
        else
          processLayers env priorAsInput files qbox rest (some g)
            img (msk ++ [data])
      else if layer == "lc" then
        match mapLC data with
        | .error err => .error err
        | .ok d =>
          processLayers env priorAsInput files qbox rest (some g)
            img (msk ++ [d])
      else
        processLayers env priorAsInput files qbox rest (some g) img msk

/-- The contribution of a single requested layer to the image and mask
lists once the crop geometry `g` is fixed: the branch structure of the
loop body of `__getitem__` (layer names matching no branch, i.e.
`'nlcd'`, contribute to neither list). -/
def routeLayer (env : Env) (priorAsInput : Bool) (files : Files) (g : Rect)
    (layer : String) : Except PyErr (List Tensor × List Tensor) :=
  let data := env.readMask (files.get layer) g
  if imageLayerNames.contains layer then .ok ([data], [])
  else if valid_prior_layers.contains layer then
    if priorAsInput then .ok ([data], []) else .ok ([], [data])
  else if layer == "lc" then
    match mapLC data with
    | .error err => .error err
    | .ok d => .ok ([], [d])
  else .ok ([], [])

/-- The image and mask lists accumulated over a list of layers at a fixed
crop geometry, in request order. -/
def routeAll (env : Env) (priorAsInput : Bool) (files : Files) (g : Rect) :
    List String → Except PyErr (List Tensor × List Tensor)
  | [] => .ok ([], [])
  | l :: rest =>
    match routeLayer env priorAsInput files g l,
        routeAll env priorAsInput files g rest with
    | .ok c, .ok r => .ok (c.1 ++ r.1, c.2 ++ r.2)
    | .error err, _ => .error err
    | _, .error err => .error err

/-- The sample dictionary returned by `EnviroAtlas.__getitem__`. -/
structure Sample where
  image : Tensor
  mask : Tensor
  crs : String
  bounds : GeoSlice
  deriving DecidableEq, Repr

/-- The attributes of an `EnviroAtlas` instance that `__getitem__`
reads. -/
structure State where
  index : List Entry
  crs : String
  layers : List String
  priorAsInput : Bool
  transforms : Option (Sample → Sample)

/-- The row-filtering pipeline of `EnviroAtlas.__getitem__` (identical to
the GlobBiomass one). -/
def tileSet (s : State) (q : GeoSlice) : List Entry :=
  spatioTemporalFilter Entry.interval Entry.geom s.index q

/-- Embedding of `EnviroAtlas.__getitem__`.  The method writes no
attribute of `self`, so the state it passes back is its input state.
After filtering, an empty index raises `IndexError`, more than one row
raises `IndexError` ("query ... spans multiple tiles which is not
valid"), and a single row is processed layer by layer, the image and mask
lists being concatenated by `np.concatenate(..., axis=0)`. -/
def getitem (env : Env) (s : State) (q : GeoSlice) :
    State × Except PyErr Sample :=
  (s,
    if q.tstart > q.tstop then .error .valueError
    else
      match tileSet s q with
      | [] => .error .indexError
      | [e] =>
        match processLayers env s.priorAsInput e.files q.rect
            s.layers none [] [] with
        | .error err => .error err
        | .ok res =>
          match npConcatenate res.1, npConcatenate res.2 with
          | .ok image, .ok mask =>
            .ok (applyTransforms s.transforms
              { image := image, mask := mask, crs := s.crs, bounds := q })
          | .error err, _ => .error err
          | _, .error err => .error err
      | _ => .error .indexError)

/-- One feature row of `spatial_index.geojson`, as read in
`EnviroAtlas.__init__`: its `split` property, its geometry, and the
per-layer filename properties. -/
structure Row where
  split : String
  geom : Rect
  naip : String
  nlcd : String
  roads : String
  water : String
  waterways : String
  waterbodies : String
  buildings : String
  lc : String

/-- The filename columns built for a geojson row: the literal properties,
plus the two prior filenames derived from the `naip` name with
`str.replace('a_naip', ...)`. -/
def rowFiles (r : Row) : Files :=
  { naip := r.naip
    nlcd := r.nlcd
    roads := r.roads
    water := r.water
    waterways := r.waterways
    waterbodies := r.waterbodies
    buildings := r.buildings
    lc := r.lc
    prior_no_osm_no_buildings :=
      strReplace r.naip "a_naip"
        "prior_from_cooccurrences_101_31_no_osm_no_buildings"
    prior := strReplace r.naip "a_naip" "prior_from_cooccurrences_101_31" }

/-- The datetime interval `(pd.Timestamp.min, pd.Timestamp.max)` with
`closed='both'` that `__init__` registers for every tile. -/
def maximalInterval : PInterval :=
  ⟨pdTimestampMin, pdTimestampMax, true, true⟩

/-- The index construction of `EnviroAtlas.__init__`: the geojson rows
whose `split` property is among the requested splits, each registered
with the maximal both-closed datetime interval. -/
def buildIndex (rows : List Row) (splits : List String) : List Entry :=
  (rows.filter (fun r => splits.contains r.split)).map
    (fun r => ⟨maximalInterval, r.geom, rowFiles r⟩)

/-- Filesystem environment for `EnviroAtlas._verify`: whether every entry
of `_files` exists under `root/enviroatlas_lotp`, and whether
`root/enviroatlas_lotp.zip` exists. -/
structure VerifyEnv where
  allFilesExist : Bool
  zipExists : Bool

/-- Side effects that `EnviroAtlas._verify` can perform. -/
inductive VerifyAction where
  | extract
  | download
  deriving DecidableEq, Repr

/-- Embedding of `EnviroAtlas._verify`: extracted files short-circuit,
then a present zip is extracted, then `DatasetNotFoundError` unless
`download` is set, in which case the dataset is downloaded and
extracted. -/
def verify (env : VerifyEnv) (download : Bool) :
    List VerifyAction × Option PyErr :=
  if env.allFilesExist then ([], none)
  else if env.zipExists then ([.extract], none)
  else if !download then ([], some .datasetNotFound)
  else ([.download, .extract], none)

end EnviroAtlas

/-- Definition following the words of claim C2 (not the code): the set of
index entries whose datetime interval overlaps the query's CLOSED time
interval `[tmin, tmax]` and whose geometry intersects the query bounding
box. -/
def specClosedIntervalTileSet {α : Type} (interval : α → PInterval)
    (geom : α → Rect) (idx : List α) (q : GeoSlice) : List α :=
  idx.filter (fun e =>
    (interval e).overlaps ⟨q.tstart, q.tstop, true, true⟩ &&
    (geom e).intersects q.rect)

/-- Definition following the words of claim C4 (not the code): the data
of a layer obtained by cropping that layer's raster to the envelope of
the query box transformed into THAT layer's own file CRS. -/
def specPerLayerCrop (env : EnviroAtlas.Env) (files : EnviroAtlas.Files)
    (qbox : Rect) (layer : String) : Tensor :=
  env.readMask (files.get layer)
    (env.transformEnvelope (env.fileCRS (files.get layer)) qbox)

/-! Concrete instances used to witness the theorems and to exhibit
counterexamples. -/

namespace Ex

/-- Filename columns of a sample EnviroAtlas tile. -/
def eaFiles : EnviroAtlas.Files :=
  { naip := "t_a_naip.tif"
    nlcd := "t_b_nlcd.tif"
    roads := "t_c_roads.tif"
    water := "t_d_water.tif"
    waterways := "t_d1_waterways.tif"
    waterbodies := "t_d2_waterbodies.tif"
    buildings := "t_e_buildings.tif"
    lc := "t_h_highres_labels.tif"
    prior_no_osm_no_buildings :=
      "t_prior_from_cooccurrences_101_31_no_osm_no_buildings.tif"
    prior := "t_prior_from_cooccurrences_101_31.tif" }

/-- A raster environment where every file lives in `epsg:26917`, the
transformer is the identity, the land-cover raster holds the raw code 92
and every other raster holds the pixel 5. -/
def eaEnv : EnviroAtlas.Env :=
  { fileCRS := fun _ => "epsg:26917"
    transformEnvelope := fun _ r => r
    readMask := fun fn _ =>
      if fn = "t_h_highres_labels.tif" then [[92]] else [[5]] }

/-- A sample EnviroAtlas index row with the maximal datetime interval. -/
def eaEntry : EnviroAtlas.Entry :=
  ⟨EnviroAtlas.maximalInterval, ⟨0, 0, 100, 100⟩, eaFiles⟩

/-- A second index row, spatially adjacent to `eaEntry`. -/
def eaEntry2 : EnviroAtlas.Entry :=
  ⟨EnviroAtlas.maximalInterval, ⟨100, 0, 200, 100⟩, eaFiles⟩

/-- A one-tile EnviroAtlas instance asking for the `naip` and `lc`
layers. -/
def eaState : EnviroAtlas.State :=
  { index := [eaEntry]
    crs := "epsg:3857"
    layers := ["naip", "lc"]
    priorAsInput := false
    transforms := none }

/-- A two-tile EnviroAtlas instance (same layers). -/
def eaState2 : EnviroAtlas.State :=
  { index := [eaEntry, eaEntry2]
    crs := "epsg:3857"
    layers := ["naip", "lc"]
    priorAsInput := false
    transforms := none }

/-- A query box well inside `eaEntry`. -/
def eaQ : GeoSlice := ⟨0, 10, 0, 10, 0, 1, 1⟩

/-- A query box straddling `eaEntry` and `eaEntry2`. -/
def eaQ2 : GeoSlice := ⟨90, 110, 0, 10, 0, 1, 1⟩

/-- The degenerate query whose time range is the single point
`pd.Timestamp.max`. -/
def eaQMax : GeoSlice :=
  ⟨0, 10, 0, 10, pdTimestampMax, pdTimestampMax, 1⟩

/-- A geojson feature row for the EnviroAtlas index construction. -/
def eaRow : EnviroAtlas.Row :=
  { split := "pittsburgh_pa-2010_1m-train"
    geom := ⟨0, 0, 100, 100⟩
    naip := "t_a_naip.tif"
    nlcd := "t_b_nlcd.tif"
    roads := "t_c_roads.tif"
    water := "t_d_water.tif"
    waterways := "t_d1_waterways.tif"
    waterbodies := "t_d2_waterbodies.tif"
    buildings := "t_e_buildings.tif"
    lc := "t_h_highres_labels.tif" }

/-- An environment for the C4 counterexample: the `naip` file is in
`epsg:26917`, the `lc` file in `epsg:26918`; the two transformers send
the query box to different envelopes, and the `lc` raster content
differs between the two envelopes (raw code 10 versus raw code 20). -/
def c4Env : EnviroAtlas.Env :=
  { fileCRS := fun fn =>
      if fn = "t_h_highres_labels.tif" then "epsg:26918" else "epsg:26917"
    transformEnvelope := fun crs r =>
      if crs = "epsg:26918" then
        ⟨r.xmin + 100, r.ymin + 100, r.xmax + 100, r.ymax + 100⟩
      else r
    readMask := fun fn r =>
      if fn = "t_h_highres_labels.tif" then
        if r = ⟨0, 0, 10, 10⟩ then [[10]] else [[20]]
      else [[5]] }

/-- An environment for the C5 counterexample, giving the `nlcd` raster a
recognizable pixel. -/
def c5Env : EnviroAtlas.Env :=
  { fileCRS := fun _ => "epsg:26917"
    transformEnvelope := fun _ r => r
    readMask := fun fn _ =>
      if fn = "t_h_highres_labels.tif" then [[92]]
      else if fn = "t_b_nlcd.tif" then [[7]]
      else [[5]] }

/-- A one-tile EnviroAtlas instance that also requests the `nlcd`
layer. -/
def c5State : EnviroAtlas.State :=
  { index := [eaEntry]
    crs := "epsg:3857"
    layers := ["naip", "nlcd", "lc"]
    priorAsInput := false
    transforms := none }

/-- A GlobBiomass raster environment whose mosaic records which files
were merged. -/
def gbEnv : GlobBiomass.Env :=
  { mosaic := fun paths _ =>
      if paths = ["a.tif", "b.tif"] then [1, 2]
      else if paths = ["a_err.tif", "b_err.tif"] then [3, 4]
      else [9] }

/-- A two-tile GlobBiomass instance over the year-2010 interval. -/
def gbState : GlobBiomass.State :=
  { index := [⟨⟨0, 100, true, true⟩, ⟨0, 0, 50, 50⟩, "a.tif"⟩,
              ⟨⟨0, 100, true, true⟩, ⟨50, 0, 120, 50⟩, "b.tif"⟩]
    crs := "EPSG:4326"
    transforms := none }

/-- A query straddling both GlobBiomass tiles. -/
def gbQ : GeoSlice := ⟨40, 60, 0, 10, 0, 50, 1⟩

/-- A GlobBiomass query whose time range starts exactly at the right
endpoint of both tile intervals. -/
def gbQEdge : GeoSlice := ⟨40, 60, 0, 10, 100, 200, 1⟩

/-- A verification environment for the C6 witness: both zips found, the
`agb` archive intact, the `gsv` archive corrupted. -/
def gbVerifyEnv : GlobBiomass.VerifyEnv :=
  { filesFound := false
    zips := ["N00E020_agb.zip", "N00E020_gsv.zip"]
    integrityOk := fun z _ => z = "N00E020_agb.zip" }

end Ex

/-! ## Helper lemmas -/

theorem ilocStep_one {α : Type} (l : List α) : ilocStep l 1 = l := by
  unfold ilocStep
  rw [List.filter_eq_self.mpr, List.enum_map_snd]
  intro a _
  simp [Nat.mod_one]

/-- With a temporal step of 1 the two-stage row filtering collapses to a
single filter by the conjunction of the temporal and spatial tests. -/
theorem spatioTemporalFilter_one {α : Type} (interval : α → PInterval)
    (geom : α → Rect) (idx : List α) (q : GeoSlice) (h : q.tstep = 1) :
    spatioTemporalFilter interval geom idx q =
      idx.filter (fun e => (interval e).overlaps q.interval &&
        (geom e).intersects q.rect) := by
  unfold spatioTemporalFilter temporalFilter
  rw [h, ilocStep_one, List.filter_filter]
  exact List.filter_congr (fun a _ => by rw [Bool.and_comm])

namespace EnviroAtlas

theorem mapPixel_le (p v : Nat) (h : mapPixel p = .ok v) : v ≤ 10 := by
  have hmem : v ∈ raw_enviroatlas_to_idx_map := by
    unfold mapPixel at h
    cases hg : raw_enviroatlas_to_idx_map.get? p with
    | none => rw [hg] at h; exact absurd h (by simp)
    | some w =>
      rw [hg] at h
      cases h
      exact List.get?_mem hg
  have : ∀ v ∈ raw_enviroatlas_to_idx_map, v ≤ 10 := by decide
  exact this v hmem

theorem mapChan_le (c c' : Chan) (h : mapChan c = .ok c') :
    ∀ p ∈ c', p ≤ 10 := by
  induction c generalizing c' with
  | nil =>
    unfold mapChan at h
    cases h
    intro p hp
    exact absurd hp (List.not_mem_nil p)
  | cons q qs ih =>
    unfold mapChan at h
    cases hq : mapPixel q with
    | error err => rw [hq] at h; exact absurd h (by simp)
    | ok v =>
      cases hqs : mapChan qs with
      | error err => rw [hq, hqs] at h; exact absurd h (by simp)
      | ok vs =>
        rw [hq, hqs] at h
        cases h
        intro p hp
        rcases List.mem_cons.mp hp with h1 | h2
        · exact h1 ▸ mapPixel_le q v hq
        · exact ih vs hqs p h2

theorem mapLC_le (t t' : Tensor) (h : mapLC t = .ok t') :
    ∀ c ∈ t', ∀ p ∈ c, p ≤ 10 := by
  induction t generalizing t' with
  | nil =>
    unfold mapLC at h
    cases h
    intro c hc
    exact absurd hc (List.not_mem_nil c)
  | cons d ds ih =>
    unfold mapLC at h
    cases hd : mapChan d with
    | error err => rw [hd] at h; exact absurd h (by simp)
    | ok c1 =>
      cases hds : mapLC ds with
      | error err => rw [hd, hds] at h; exact absurd h (by simp)
      | ok cs =>
        rw [hd, hds] at h
        cases h
        intro c hc
        rcases List.mem_cons.mp hc with h1 | h2
        · exact h1 ▸ mapChan_le d c1 hd
        · exact ih cs hds c h2

/-- Once the crop geometry is fixed (`qgt = some g`), the per-layer loop
is exactly the fold of the single-layer routing function: the image and
mask lists receive, in request order, the contributions of each layer. -/
theorem processLayers_some_eq (env : Env) (p : Bool) (files : Files)
    (qbox : Rect) (g : Rect) :
    ∀ (layers : List String) (img msk : List Tensor),
      processLayers env p files qbox layers (some g) img msk =
        match routeAll env p files g layers with
        | .ok r => .ok (img ++ r.1, msk ++ r.2)
        | .error err => .error err := by
  intro layers
  induction layers with
  | nil => intro img msk; simp [processLayers, routeAll]
  | cons l rest ih =>
    intro img msk
    have lhs0 : processLayers env p files qbox (l :: rest) (some g) img msk =
        (if imageLayerNames.contains l then
          processLayers env p files qbox rest (some g)
            (img ++ [env.readMask (files.get l) g]) msk
        else if valid_prior_layers.contains l then
          if p then
            processLayers env p files qbox rest (some g)
              (img ++ [env.readMask (files.get l) g]) msk
          else
            processLayers env p files qbox rest (some g)
              img (msk ++ [env.readMask (files.get l) g])
        else if l == "lc" then
          match mapLC (env.readMask (files.get l) g) with
          | .error err => .error err
          | .ok d =>
            processLayers env p files qbox rest (some g) img (msk ++ [d])
        else processLayers env p files qbox rest (some g) img msk) := rfl
    have rhs0 : routeAll env p files g (l :: rest) =
        match routeLayer env p files g l, routeAll env p files g rest with
        | .ok c, .ok r => .ok (c.1 ++ r.1, c.2 ++ r.2)
        | .error err, _ => .error err
        | _, .error err => .error err := rfl
    rw [lhs0, rhs0]
    by_cases h1 : imageLayerNames.contains l
    · have hr : routeLayer env p files g l =
          .ok ([env.readMask (files.get l) g], []) := by
        unfold routeLayer; rw [if_pos h1]
      rw [if_pos h1, ih, hr]
      cases routeAll env p files g rest with
      | ok r => simp
      | error err => rfl
    · by_cases h2 : valid_prior_layers.contains l
      · by_cases h3 : p = true
        · have hr : routeLayer env p files g l =
              .ok ([env.readMask (files.get l) g], []) := by
            unfold routeLayer; rw [if_neg h1, if_pos h2, if_pos h3]
          rw [if_neg h1, if_pos h2, if_pos h3, ih, hr]
          cases routeAll env p files g rest with
          | ok r => simp
          | error err => rfl
        · have hr : routeLayer env p files g l =
              .ok ([], [env.readMask (files.get l) g]) := by
            unfold routeLayer; rw [if_neg h1, if_pos h2, if_neg h3]
          rw [if_neg h1, if_pos h2, if_neg h3, ih, hr]
          cases routeAll env p files g rest with
          | ok r => simp
          | error err => rfl
      · by_cases h4 : (l == "lc") = true
        · have hr : routeLayer env p files g l =
              (match mapLC (env.readMask (files.get l) g) with
               | .error err => .error err
               | .ok d => .ok ([], [d])) := by
            unfold routeLayer; rw [if_neg h1, if_neg h2, if_pos h4]
          rw [if_neg h1, if_neg h2, if_pos h4, hr]
          cases hm : mapLC (env.readMask (files.get l) g) with
          | error err =>
            cases routeAll env p files g rest with
            | ok r => rfl
            | error err2 => rfl
          | ok d =>
            show processLayers env p files qbox rest (some g)
              img (msk ++ [d]) = _
            rw [ih]
            cases routeAll env p files g rest with
            | ok r => simp
            | error err => rfl
        · have hr : routeLayer env p files g l = .ok ([], []) := by
            unfold routeLayer; rw [if_neg h1, if_neg h2, if_neg h4]
          rw [if_neg h1, if_neg h2, if_neg h4, ih, hr]
          cases routeAll env p files g rest with
          | ok r => simp
          | error err => rfl

/-- On the mask side, every contribution of `routeAll` is a remapped
land-cover tensor whenever the requested prior layers go to the image
side, so its pixels stay in `[0, 10]`. -/
theorem routeAll_mask_bound (env : Env) (p : Bool) (files : Files)
    (g : Rect) :
    ∀ (layers : List String) (r : List Tensor × List Tensor),
      (∀ l ∈ layers, valid_prior_layers.contains l = true → p = true) →
      routeAll env p files g layers = .ok r →
      ∀ t ∈ r.2, ∀ c ∈ t, ∀ px ∈ c, px ≤ 10 := by
  intro layers
  induction layers with
  | nil =>
    intro r _ h
    unfold routeAll at h
    cases h
    intro t ht
    exact absurd ht (List.not_mem_nil t)
  | cons l rest ih =>
    intro r hp h
    unfold routeAll at h
    cases hl : routeLayer env p files g l with
    | error err => rw [hl] at h; exact absurd h (by simp)
    | ok c =>
      cases hrest : routeAll env p files g rest with
      | error err => rw [hl, hrest] at h; exact absurd h (by simp)
      | ok r' =>
        rw [hl, hrest] at h
        cases h
        have hc2 : ∀ t ∈ c.2, ∀ ch ∈ t, ∀ px ∈ ch, px ≤ 10 := by
          unfold routeLayer at hl
          by_cases h1 : imageLayerNames.contains l
          · rw [if_pos h1] at hl
            cases hl
            intro t ht
            exact absurd ht (List.not_mem_nil t)
          · by_cases h2 : valid_prior_layers.contains l
            · have hpt : p = true := hp l (List.mem_cons_self l rest) h2
              rw [if_neg h1, if_pos h2, if_pos hpt] at hl
              cases hl
              intro t ht
              exact absurd ht (List.not_mem_nil t)
            · by_cases h4 : (l == "lc") = true
              · rw [if_neg h1, if_neg h2, if_pos h4] at hl
                cases hm : mapLC (env.readMask (files.get l) g) with
                | error err => rw [hm] at hl; exact absurd hl (by simp)
                | ok d =>
                  rw [hm] at hl
                  cases hl
                  intro t ht
                  rcases List.mem_singleton.mp ht with h5
                  exact h5 ▸ mapLC_le _ d hm
              · rw [if_neg h1, if_neg h2, if_neg h4] at hl
                cases hl
                intro t ht
                exact absurd ht (List.not_mem_nil t)
        intro t ht
        rcases List.mem_append.mp ht with h5 | h6
        · exact hc2 t h5
        · exact ih r' (fun x hx => hp x (List.mem_cons_of_mem l hx)) hrest t h6

/-- The crop geometry is computed only by the first layer: running the
loop with no geometry yet equals running it with the geometry obtained
from the first layer's file CRS, provided that CRS has a precomputed
transformer (otherwise `KeyError`). -/
theorem processLayers_none_eq_first (env : Env) (p : Bool) (files : Files)
    (qbox : Rect) (l : String) (rest : List String) (img msk : List Tensor)
    (hkey : pTransformerKeys.contains (env.fileCRS (files.get l)) = true) :
    processLayers env p files qbox (l :: rest) none img msk =
      processLayers env p files qbox (l :: rest)
        (some (env.transformEnvelope (env.fileCRS (files.get l)) qbox))
        img msk := by
  conv_lhs => rw [processLayers]
  conv_rhs => rw [processLayers]
  simp only [hkey, if_true]

/-- Without a precomputed transformer for the first layer's file CRS, the
dictionary lookup `p_transformers[dst_crs]` raises `KeyError`. -/
theorem processLayers_none_keyError (env : Env) (p : Bool) (files : Files)
    (qbox : Rect) (l : String) (rest : List String) (img msk : List Tensor)
    (hkey : pTransformerKeys.contains (env.fileCRS (files.get l)) = false) :
    processLayers env p files qbox (l :: rest) none img msk =
      .error .keyError := by
  conv_lhs => rw [processLayers]
  simp only [hkey]
  rfl

/-- Pixel bound for a successful run of the layer loop started with no
geometry and empty accumulators, when every requested prior layer is
routed to the image side. -/
theorem processLayers_mask_bound (env : Env) (p : Bool) (files : Files)
    (qbox : Rect) (layers : List String) (res : List Tensor × List Tensor)
    (hp : ∀ l ∈ layers, valid_prior_layers.contains l = true → p = true)
    (h : processLayers env p files qbox layers none [] [] = .ok res) :
    ∀ t ∈ res.2, ∀ c ∈ t, ∀ px ∈ c, px ≤ 10 := by
  cases layers with
  | nil =>
    unfold processLayers at h
    cases h
    intro t ht
    exact absurd ht (List.not_mem_nil t)
  | cons l rest =>
    by_cases hkey : pTransformerKeys.contains (env.fileCRS (files.get l))
    · rw [processLayers_none_eq_first env p files qbox l rest [] [] hkey,
        processLayers_some_eq] at h
      cases hra : routeAll env p files
          (env.transformEnvelope (env.fileCRS (files.get l)) qbox)
          (l :: rest) with
      | error err => rw [hra] at h; exact absurd h (by simp)
      | ok r =>
        rw [hra] at h
        cases h
        simpa using routeAll_mask_bound env p files
          (env.transformEnvelope (env.fileCRS (files.get l)) qbox)
          (l :: rest) r hp hra
    · rw [processLayers_none_keyError env p files qbox l rest [] []
        (by simpa using hkey)] at h
      exact absurd h (by simp)

end EnviroAtlas

/-- Successful concatenation: a non-empty list of tensors concatenates to
the flattening of its channel lists. -/
theorem npConcatenate_ok (ts : List Tensor) (h : ts ≠ []) :
    npConcatenate ts = .ok ts.flatten := by
  unfold npConcatenate
  rw [if_neg]
  simpa using h

/-- Inversion for `npConcatenate`: success means the input list was
non-empty and the result is its flattening. -/
theorem npConcatenate_ok_inv (ts : List Tensor) (t : Tensor)
    (h : npConcatenate ts = .ok t) : ts ≠ [] ∧ t = ts.flatten := by
  unfold npConcatenate at h
  by_cases he : ts.isEmpty
  · rw [if_pos he] at h
    exact absurd h (by simp)
  · rw [if_neg he] at h
    cases h
    exact ⟨by simpa using he, rfl⟩

namespace GlobBiomass

/-- Success characterization of the embedded `GlobBiomass.__getitem__`:
for a well-ordered time range and a non-empty filtered index, the result
is the sample whose mask is the estimate mosaic followed by the
standard-error mosaic. -/
theorem getitem_ok (env : Env) (s : State) (q : GeoSlice)
    (ht : ¬ q.tstart > q.tstop) (hne : tileSet s q ≠ []) :
    (getitem env s q).2 = .ok (applyTransforms s.transforms
      ⟨mergeFiles env ((tileSet s q).map Entry.filepath) q ++
        mergeFiles env (((tileSet s q).map Entry.filepath).map errPath) q,
        s.crs, q⟩) := by
  show (if q.tstart > q.tstop then (.error .valueError : Except PyErr Sample)
    else
      let idx := tileSet s q
      if idx.isEmpty then .error .indexError
      else
        let mask := mergeFiles env (idx.map Entry.filepath) q
        let stdErrorPaths := (idx.map Entry.filepath).map errPath
        let stdErrMask := mergeFiles env stdErrorPaths q
        let m := mask ++ stdErrMask
        .ok (applyTransforms s.transforms ⟨m, s.crs, q⟩)) = _
  rw [if_neg ht]
  simp only []
  rw [if_neg (by simpa using hne)]

/-- Failure characterization of the embedded `GlobBiomass.__getitem__`:
with a well-ordered time range, `IndexError` is raised exactly on an
empty filtered index. -/
theorem getitem_error_iff (env : Env) (s : State) (q : GeoSlice)
    (ht : ¬ q.tstart > q.tstop) :
    ((getitem env s q).2 = .error .indexError ↔ tileSet s q = []) := by
  constructor
  · intro h
    by_contra hne
    rw [getitem_ok env s q ht hne] at h
    exact absurd h (by simp)
  · intro he
    show (if q.tstart > q.tstop then (.error .valueError : Except PyErr Sample)
      else
        let idx := tileSet s q
        if idx.isEmpty then .error .indexError
        else
          let mask := mergeFiles env (idx.map Entry.filepath) q
          let stdErrorPaths := (idx.map Entry.filepath).map errPath
          let stdErrMask := mergeFiles env stdErrorPaths q
          let m := mask ++ stdErrMask
          .ok (applyTransforms s.transforms ⟨m, s.crs, q⟩)) = _
    rw [if_neg ht]
    simp only []
    rw [if_pos (by simp [he])]

end GlobBiomass

namespace EnviroAtlas

/-- Failure of the embedded `EnviroAtlas.__getitem__` on an empty
filtered index. -/
theorem getitem_empty (env : Env) (s : State) (q : GeoSlice)
    (ht : ¬ q.tstart > q.tstop) (he : tileSet s q = []) :
    (getitem env s q).2 = .error .indexError := by
  show (if q.tstart > q.tstop then (.error .valueError : Except PyErr Sample)
    else match tileSet s q with
      | [] => .error .indexError
      | [e] =>
        match processLayers env s.priorAsInput e.files q.rect
            s.layers none [] [] with
        | .error err => .error err
        | .ok res =>
          match npConcatenate res.1, npConcatenate res.2 with
          | .ok image, .ok mask =>
            .ok (applyTransforms s.transforms
              { image := image, mask := mask, crs := s.crs, bounds := q })
          | .error err, _ => .error err
          | _, .error err => .error err
      | _ => .error .indexError) = .error .indexError
  rw [if_neg ht, he]

/-- Failure of the embedded `EnviroAtlas.__getitem__` on a filtered index
with at least two rows ("query ... spans multiple tiles"). -/
theorem getitem_multi (env : Env) (s : State) (q : GeoSlice)
    (e1 e2 : Entry) (tl : List Entry) (ht : ¬ q.tstart > q.tstop)
    (hm : tileSet s q = e1 :: e2 :: tl) :
    (getitem env s q).2 = .error .indexError := by
  show (if q.tstart > q.tstop then (.error .valueError : Except PyErr Sample)
    else match tileSet s q with
      | [] => .error .indexError
      | [e] =>
        match processLayers env s.priorAsInput e.files q.rect
            s.layers none [] [] with
        | .error err => .error err
        | .ok res =>
          match npConcatenate res.1, npConcatenate res.2 with
          | .ok image, .ok mask =>
            .ok (applyTransforms s.transforms
              { image := image, mask := mask, crs := s.crs, bounds := q })
          | .error err, _ => .error err
          | _, .error err => .error err
      | _ => .error .indexError) = .error .indexError
  rw [if_neg ht, hm]

/-- Success characterization of the embedded `EnviroAtlas.__getitem__`:
exactly one filtered row, successful layer processing, and non-empty
image and mask lists yield the concatenated sample. -/
theorem getitem_single (env : Env) (s : State) (q : GeoSlice) (e : Entry)
    (res : List Tensor × List Tensor) (ht : ¬ q.tstart > q.tstop)
    (hone : tileSet s q = [e])
    (hres : processLayers env s.priorAsInput e.files q.rect
      s.layers none [] [] = .ok res)
    (himg : res.1 ≠ []) (hmsk : res.2 ≠ []) :
    (getitem env s q).2 = .ok (applyTransforms s.transforms
      ⟨res.1.flatten, res.2.flatten, s.crs, q⟩) := by
  show (if q.tstart > q.tstop then (.error .valueError : Except PyErr Sample)
    else match tileSet s q with
      | [] => .error .indexError
      | [e] =>
        match processLayers env s.priorAsInput e.files q.rect
            s.layers none [] [] with
        | .error err => .error err
        | .ok res =>
          match npConcatenate res.1, npConcatenate res.2 with
          | .ok image, .ok mask =>
            .ok (applyTransforms s.transforms
              { image := image, mask := mask, crs := s.crs, bounds := q })
          | .error err, _ => .error err
          | _, .error err => .error err
      | _ => .error .indexError) = _
  rw [if_neg ht, hone]
  simp only [hres, npConcatenate_ok res.1 himg, npConcatenate_ok res.2 hmsk]

/-- Inversion for the embedded `EnviroAtlas.__getitem__`: a successful
query has a well-ordered time range, matched exactly one tile, its layer
processing succeeded with non-empty image and mask lists, and the sample
is the concatenation of those lists. -/
theorem getitem_ok_inv (env : Env) (s : State) (q : GeoSlice)
    (sample : Sample) (h : (getitem env s q).2 = .ok sample) :
    ∃ e res, tileSet s q = [e] ∧
      processLayers env s.priorAsInput e.files q.rect
        s.layers none [] [] = .ok res ∧
      res.1 ≠ [] ∧ res.2 ≠ [] ∧
      sample = applyTransforms s.transforms
        ⟨res.1.flatten, res.2.flatten, s.crs, q⟩ := by
  have h' : (if q.tstart > q.tstop
      then (.error .valueError : Except PyErr Sample)
    else match tileSet s q with
      | [] => .error .indexError
      | [e] =>
        match processLayers env s.priorAsInput e.files q.rect
            s.layers none [] [] with
        | .error err => .error err
        | .ok res =>
          match npConcatenate res.1, npConcatenate res.2 with
          | .ok image, .ok mask =>
            .ok (applyTransforms s.transforms
              { image := image, mask := mask, crs := s.crs, bounds := q })
          | .error err, _ => .error err
          | _, .error err => .error err
      | _ => .error .indexError) = .ok sample := h
  clear h
  by_cases ht : q.tstart > q.tstop
  · rw [if_pos ht] at h'
    exact absurd h' (by simp)
  · rw [if_neg ht] at h'
    cases hts : tileSet s q with
    | nil => rw [hts] at h'; exact absurd h' (by simp)
    | cons e tl =>
      cases tl with
      | cons e2 tl2 => rw [hts] at h'; exact absurd h' (by simp)
      | nil =>
        simp only [hts] at h'
        cases hp : processLayers env s.priorAsInput e.files q.rect
            s.layers none [] [] with
        | error err => simp only [hp] at h'; exact absurd h' (by simp)
        | ok res =>
          simp only [hp] at h'
          cases h1 : npConcatenate res.1 with
          | error err =>
            cases h2 : npConcatenate res.2 with
            | error err2 =>
              simp only [h1, h2] at h'
              exact absurd h' (by simp)
            | ok mask =>
              simp only [h1, h2] at h'
              exact absurd h' (by simp)
          | ok image =>
            cases h2 : npConcatenate res.2 with
            | error err =>
              simp only [h1, h2] at h'
              exact absurd h' (by simp)
            | ok mask =>
              simp only [h1, h2] at h'
              obtain ⟨hne1, he1⟩ := npConcatenate_ok_inv res.1 image h1
              obtain ⟨hne2, he2⟩ := npConcatenate_ok_inv res.2 mask h2
              refine ⟨e, res, rfl, hp, hne1, hne2, ?_⟩
              injection h' with h3
              rw [← h3, he1, he2]

end EnviroAtlas

namespace GlobBiomass

/-- With `checksum=False` every matched archive is extracted and no error
is raised. -/
theorem verifyZips_noChecksum (env : VerifyEnv) :
    ∀ zips : List String,
      verifyZips env false zips = (zips.map .extract, none) := by
  intro zips
  induction zips with
  | nil => rfl
  | cons z rest ih =>
    unfold verifyZips
    rw [if_neg (by simp)]
    simp [ih]

/-- With `checksum=True` and every archive passing its MD5 check, every
matched archive is extracted and no error is raised. -/
theorem verifyZips_allOk (env : VerifyEnv) :
    ∀ zips : List String,
      (∀ z ∈ zips, ∃ m, md5Lookup z = some m ∧ env.integrityOk z m = true) →
      verifyZips env true zips = (zips.map .extract, none) := by
  intro zips
  induction zips with
  | nil => intro _; rfl
  | cons z rest ih =>
    intro h
    obtain ⟨m, hm, hok⟩ := h z (List.mem_cons_self z rest)
    unfold verifyZips
    rw [if_pos rfl, hm]
    simp only [if_pos hok, ih (fun y hy => h y (List.mem_cons_of_mem z hy))]
    rfl

/-- With `checksum=True`, the first archive failing its MD5 check aborts
the loop with `RuntimeError` before that archive is extracted; the
archives before it have already been extracted. -/
theorem verifyZips_firstBad (env : VerifyEnv) :
    ∀ (pre : List String) (z : String) (post : List String) (m : String),
      (∀ y ∈ pre, ∃ my, md5Lookup y = some my ∧ env.integrityOk y my = true) →
      md5Lookup z = some m → env.integrityOk z m = false →
      verifyZips env true (pre ++ z :: post) =
        (pre.map .extract, some .runtimeError) := by
  intro pre
  induction pre with
  | nil =>
    intro z post m _ hm hbad
    simp only [List.nil_append]
    unfold verifyZips
    rw [if_pos rfl, hm]
    simp [hbad]
  | cons y rest ih =>
    intro z post m hpre hm hbad
    obtain ⟨my, hmy, hoky⟩ := hpre y (List.mem_cons_self y rest)
    show verifyZips env true (y :: (rest ++ z :: post)) = _
    unfold verifyZips
    rw [if_pos rfl, hmy]
    simp only [if_pos hoky,
      ih z post m (fun x hx => hpre x (List.mem_cons_of_mem y hx)) hm hbad]
    rfl

end GlobBiomass

/-- C6: dataset verification at construction is validation orchestration
with a fixed precedence.  GlobBiomass: extracted files short-circuit;
otherwise matched zip archives are processed in order, each one's MD5
being checked first when `checksum` is set — a mismatch raises
`RuntimeError('Dataset found, but corrupted.')` before that archive is
extracted — and extracted otherwise; with no archives,
`DatasetNotFoundError`.  EnviroAtlas: extracted files short-circuit, then
a present zip is extracted, then `DatasetNotFoundError` exactly when
`download` is False (otherwise download then extract). -/
theorem claim6_verify_orchestration :
    (∀ (env : GlobBiomass.VerifyEnv) (checksum : Bool),
      env.filesFound = true → GlobBiomass.verify env checksum = ([], none)) ∧
    (∀ (env : GlobBiomass.VerifyEnv) (checksum : Bool),
      env.filesFound = false → env.zips = [] →
      GlobBiomass.verify env checksum = ([], some .datasetNotFound)) ∧
    (∀ env : GlobBiomass.VerifyEnv,
      env.filesFound = false → env.zips ≠ [] →
      GlobBiomass.verify env false = (env.zips.map .extract, none)) ∧
    (∀ env : GlobBiomass.VerifyEnv,
      env.filesFound = false → env.zips ≠ [] →
      (∀ z ∈ env.zips, ∃ m, GlobBiomass.md5Lookup z = some m ∧
        env.integrityOk z m = true) →
      GlobBiomass.verify env true = (env.zips.map .extract, none)) ∧
    (∀ (env : GlobBiomass.VerifyEnv) (pre : List String) (z : String)
        (post : List String) (m : String),
      env.filesFound = false → env.zips = pre ++ z :: post →
      (∀ y ∈ pre, ∃ my, GlobBiomass.md5Lookup y = some my ∧
        env.integrityOk y my = true) →
      GlobBiomass.md5Lookup z = some m → env.integrityOk z m = false →
      GlobBiomass.verify env true =
        (pre.map .extract, some .runtimeError)) ∧
    (∀ (env : EnviroAtlas.VerifyEnv) (download : Bool),
      env.allFilesExist = true → EnviroAtlas.verify env download = ([], none)) ∧
    (∀ (env : EnviroAtlas.VerifyEnv) (download : Bool),
      env.allFilesExist = false → env.zipExists = true →
      EnviroAtlas.verify env download = ([.extract], none)) ∧
    (∀ env : EnviroAtlas.VerifyEnv,
      env.allFilesExist = false → env.zipExists = false →
      EnviroAtlas.verify env false = ([], some .datasetNotFound)) ∧
    (∀ env : EnviroAtlas.VerifyEnv,
      env.allFilesExist = false → env.zipExists = false →
      EnviroAtlas.verify env true = ([.download, .extract], none)) := by
  refine ⟨?_, ?_, ?_, ?_, ?_, ?_, ?_, ?_, ?_⟩
  · intro env checksum h
    unfold GlobBiomass.verify
    rw [if_pos h]
  · intro env checksum h hz
    unfold GlobBiomass.verify
    rw [if_neg (by simp [h]), if_neg (by simp [hz])]
  · intro env h hz
    unfold GlobBiomass.verify
    rw [if_neg (by simp [h]), if_pos (by simpa using hz)]
    exact GlobBiomass.verifyZips_noChecksum env env.zips
  · intro env h hz hok
    unfold GlobBiomass.verify
    rw [if_neg (by simp [h]), if_pos (by simpa using hz)]
    exact GlobBiomass.verifyZips_allOk env env.zips hok
  · intro env pre z post m h hz hpre hm hbad
    unfold GlobBiomass.verify
    rw [if_neg (by simp [h]), if_pos (by simp [hz])]
    rw [hz]
    exact GlobBiomass.verifyZips_firstBad env pre z post m hpre hm hbad
  · intro env download h
    unfold EnviroAtlas.verify
    rw [if_pos h]
  · intro env download h hz
    unfold EnviroAtlas.verify
    rw [if_neg (by simp [h]), if_pos hz]
  · intro env h hz
    unfold EnviroAtlas.verify
    rw [if_neg (by simp [h]), if_neg (by simp [hz]), if_pos (by simp)]
  · intro env h hz
    unfold EnviroAtlas.verify
    rw [if_neg (by simp [h]), if_neg (by simp [hz]), if_neg (by simp)]

/-- Witness for C6 at concrete inputs: an intact `agb` archive followed
by a corrupted `gsv` archive is extracted up to but not including the
corrupted one, which raises `RuntimeError`; and an EnviroAtlas root with
nothing present and `download=False` raises `DatasetNotFoundError`. -/
theorem claim6_witness :
    GlobBiomass.verify Ex.gbVerifyEnv true =
      ([.extract "N00E020_agb.zip"], some .runtimeError) ∧
    EnviroAtlas.verify ⟨false, false⟩ false = ([], some .datasetNotFound) :=
  ⟨claim6_verify_orchestration.2.2.2.2.1 Ex.gbVerifyEnv
      ["N00E020_agb.zip"] "N00E020_gsv.zip" [] "da5ddb88e369df2d781a0c6be008ae79"
      rfl rfl
      (fun y hy => by
        cases List.mem_singleton.mp hy
        exact ⟨"bd83a3a4c143885d1962bde549413be6", rfl, rfl⟩)
      rfl rfl,
   claim6_verify_orchestration.2.2.2.2.2.2.2.1 ⟨false, false⟩ rfl rfl⟩

/-- C7: GlobBiomass exposes exactly the two raster-encoded regression
targets `agb` and `gsv`: the constructor's assertion accepts exactly
those two measurement strings and raises `AssertionError` for any other
value, and the rasters are decoded as float32 regression values with
`is_image = False`. -/
theorem claim7_measurements :
    GlobBiomass.measurements = ["agb", "gsv"] ∧
    (∀ m : String,
      GlobBiomass.initCheck m = .ok () ↔ (m = "agb" ∨ m = "gsv")) ∧
    (∀ m : String,
      GlobBiomass.initCheck m = .error .assertionError ↔
        ¬(m = "agb" ∨ m = "gsv")) ∧
    GlobBiomass.is_image = false ∧
    GlobBiomass.dtype = .float32 := by
  refine ⟨rfl, ?_, ?_, rfl, rfl⟩
  · intro m
    unfold GlobBiomass.initCheck GlobBiomass.measurements
    by_cases h : m = "agb" ∨ m = "gsv"
    · rw [if_pos (by simp [List.contains]; tauto)]
      simp [h]
    · rw [if_neg (by simp [List.contains]; tauto)]
      simp [h]
  · intro m
    unfold GlobBiomass.initCheck GlobBiomass.measurements
    by_cases h : m = "agb" ∨ m = "gsv"
    · rw [if_pos (by simp [List.contains]; tauto)]
      simp [h]
    · rw [if_neg (by simp [List.contains]; tauto)]
      simp [h]

/-- Witness for C7 at concrete inputs: `agb` is accepted, `foo` raises
`AssertionError`. -/
theorem claim7_witness :
    GlobBiomass.initCheck "agb" = .ok () ∧
    GlobBiomass.initCheck "foo" = .error .assertionError :=
  ⟨(claim7_measurements.2.1 "agb").mpr (Or.inl rfl),
   (claim7_measurements.2.2.1 "foo").mpr (by simp)⟩

/-- C2 counterexample: the filtering is NOT overlap with the closed query
interval `[tmin, tmax]`.  `pd.Interval` defaults to `closed='right'`, so
for the query time range `[pd.Timestamp.max, pd.Timestamp.max]` (a point
the both-closed index interval of an EnviroAtlas tile contains) the code
builds the empty interval `(max, max]`, keeps no row, and the filtered
index is empty, while the claim's closed-overlap rule keeps the tile. -/
theorem claim2_counterexample :
    EnviroAtlas.tileSet Ex.eaState Ex.eaQMax = [] ∧
    specClosedIntervalTileSet EnviroAtlas.Entry.interval
      EnviroAtlas.Entry.geom Ex.eaState.index Ex.eaQMax = [Ex.eaEntry] ∧
    Ex.eaQMax.tstep = 1 :=
  ⟨rfl, rfl, rfl⟩

/-- C2 (amended): with a temporal step of 1, the set of tiles used by
both `__getitem__` implementations is exactly the index entries whose
datetime interval overlaps the query interval `(tmin, tmax]` — pandas'
default right-closed `Interval`, not the closed interval of the claim —
and whose geometry intersects the query bounding box, the temporal filter
being applied first and the spatial `.cx` filter to the time-filtered
rows. -/
theorem claim2_tile_filter :
    (∀ (s : GlobBiomass.State) (q : GeoSlice), q.tstep = 1 →
      GlobBiomass.tileSet s q = s.index.filter (fun e =>
        e.interval.overlaps q.interval && e.geom.intersects q.rect)) ∧
    (∀ (s : EnviroAtlas.State) (q : GeoSlice), q.tstep = 1 →
      EnviroAtlas.tileSet s q = s.index.filter (fun e =>
        e.interval.overlaps q.interval && e.geom.intersects q.rect)) :=
  ⟨fun s q h => spatioTemporalFilter_one GlobBiomass.Entry.interval
      GlobBiomass.Entry.geom s.index q h,
   fun s q h => spatioTemporalFilter_one EnviroAtlas.Entry.interval
      EnviroAtlas.Entry.geom s.index q h⟩

/-- Witness for C2 at a concrete input: the two-tile GlobBiomass index
filtered by the fused predicate. -/
theorem claim2_witness :
    GlobBiomass.tileSet Ex.gbState Ex.gbQ = Ex.gbState.index.filter (fun e =>
      e.interval.overlaps Ex.gbQ.interval &&
      e.geom.intersects Ex.gbQ.rect) :=
  claim2_tile_filter.1 Ex.gbState Ex.gbQ rfl

/-- C9 counterexample: the temporal filter is NOT vacuous for every query
time range.  For the degenerate range `[pd.Timestamp.max,
pd.Timestamp.max]` the query interval `(max, max]` is empty and excludes
every tile, even though every tile built by `EnviroAtlas.__init__`
carries the maximal both-closed interval. -/
theorem claim9_counterexample :
    EnviroAtlas.buildIndex [Ex.eaRow] ["pittsburgh_pa-2010_1m-train"] ≠ [] ∧
    temporalFilter EnviroAtlas.Entry.interval
      (EnviroAtlas.buildIndex [Ex.eaRow] ["pittsburgh_pa-2010_1m-train"])
      Ex.eaQMax = [] :=
  ⟨by decide, rfl⟩

/-- C9 (amended): every tile registered by `EnviroAtlas.__init__` carries
the maximal interval `[pd.Timestamp.min, pd.Timestamp.max]`, closed on
both ends, and the temporal filter keeps every such tile for every query
time range whose start is strictly before `pd.Timestamp.max` (in
particular every non-degenerate range); only the spatial filter (and the
splits filter at construction) then determines the matched tiles.  The
sole exception is the degenerate range `tmin = tmax = pd.Timestamp.max`,
which excludes every tile. -/
theorem claim9_maximal_interval :
    (∀ (rows : List EnviroAtlas.Row) (splits : List String),
      ∀ e ∈ EnviroAtlas.buildIndex rows splits,
        e.interval = EnviroAtlas.maximalInterval) ∧
    (∀ (idx : List EnviroAtlas.Entry) (q : GeoSlice),
      (∀ e ∈ idx, e.interval = EnviroAtlas.maximalInterval) →
      q.tstart < pdTimestampMax → pdTimestampMin ≤ q.tstop →
      temporalFilter EnviroAtlas.Entry.interval idx q = idx) ∧
    (∀ (s : EnviroAtlas.State) (q : GeoSlice),
      (∀ e ∈ s.index, e.interval = EnviroAtlas.maximalInterval) →
      q.tstep = 1 → q.tstart < pdTimestampMax → pdTimestampMin ≤ q.tstop →
      EnviroAtlas.tileSet s q =
        s.index.filter (fun e => e.geom.intersects q.rect)) := by
  have hover : ∀ (e : EnviroAtlas.Entry) (q : GeoSlice),
      e.interval = EnviroAtlas.maximalInterval →
      q.tstart < pdTimestampMax → pdTimestampMin ≤ q.tstop →
      e.interval.overlaps q.interval = true := by
    intro e q he h1 h2
    rw [he]
    simp [EnviroAtlas.maximalInterval, PInterval.overlaps, GeoSlice.interval]
    exact ⟨h2, h1⟩
  refine ⟨?_, ?_, ?_⟩
  · intro rows splits e he
    unfold EnviroAtlas.buildIndex at he
    obtain ⟨r, _, hr⟩ := List.mem_map.mp he
    rw [← hr]
  · intro idx q hmax h1 h2
    exact List.filter_eq_self.mpr (fun e he => hover e q (hmax e he) h1 h2)
  · intro s q hmax hstep h1 h2
    rw [show EnviroAtlas.tileSet s q = spatioTemporalFilter
        EnviroAtlas.Entry.interval EnviroAtlas.Entry.geom s.index q from rfl,
      spatioTemporalFilter_one _ _ _ _ hstep]
    exact List.filter_congr (fun e he => by
      rw [hover e q (hmax e he) h1 h2, Bool.true_and])

/-- Witness for C9 at concrete inputs: the one-tile index built from a
geojson row survives the temporal filter for an ordinary query, and the
tile set is the purely spatial filter. -/
theorem claim9_witness :
    temporalFilter EnviroAtlas.Entry.interval
      (EnviroAtlas.buildIndex [Ex.eaRow] ["pittsburgh_pa-2010_1m-train"])
      Ex.eaQ =
      EnviroAtlas.buildIndex [Ex.eaRow] ["pittsburgh_pa-2010_1m-train"] ∧
    EnviroAtlas.tileSet Ex.eaState Ex.eaQ =
      Ex.eaState.index.filter (fun e => e.geom.intersects Ex.eaQ.rect) :=
  ⟨claim9_maximal_interval.2.1
      (EnviroAtlas.buildIndex [Ex.eaRow] ["pittsburgh_pa-2010_1m-train"])
      Ex.eaQ
      (claim9_maximal_interval.1 [Ex.eaRow] ["pittsburgh_pa-2010_1m-train"])
      (by decide) (by decide),
   claim9_maximal_interval.2.2 Ex.eaState Ex.eaQ
      (by intro e he; cases List.mem_singleton.mp he; rfl)
      rfl (by decide) (by decide)⟩

/-- C1 counterexample: EnviroAtlas does NOT mosaic multiple tiles.  For a
concrete two-tile instance and a query box straddling both tiles, the
filtered index has two rows and `__getitem__` raises `IndexError`
("query ... spans multiple tiles which is not valid") instead of
returning a sample. -/
theorem claim1_counterexample :
    2 ≤ (EnviroAtlas.tileSet Ex.eaState2 Ex.eaQ2).length ∧
    (EnviroAtlas.getitem Ex.eaEnv Ex.eaState2 Ex.eaQ2).2 =
      .error .indexError :=
  ⟨by decide, rfl⟩

/-- C1 (amended): for every query with a well-ordered time range that
intersects one or more indexed tiles, `GlobBiomass.__getitem__` locates
the intersecting tile(s) — including several, which are mosaicked — and
returns a sample; `EnviroAtlas.__getitem__` does so only when exactly one
tile matches (and its layer processing succeeds with non-empty image and
mask lists): a query matching two or more tiles raises `IndexError`. -/
theorem claim1_locate_and_sample :
    (∀ (env : GlobBiomass.Env) (s : GlobBiomass.State) (q : GeoSlice),
      ¬ q.tstart > q.tstop → GlobBiomass.tileSet s q ≠ [] →
      ∃ sample, (GlobBiomass.getitem env s q).2 = .ok sample) ∧
    (∀ (env : EnviroAtlas.Env) (s : EnviroAtlas.State) (q : GeoSlice),
      ¬ q.tstart > q.tstop → 2 ≤ (EnviroAtlas.tileSet s q).length →
      (EnviroAtlas.getitem env s q).2 = .error .indexError) ∧
    (∀ (env : EnviroAtlas.Env) (s : EnviroAtlas.State) (q : GeoSlice)
        (e : EnviroAtlas.Entry) (res : List Tensor × List Tensor),
      ¬ q.tstart > q.tstop → EnviroAtlas.tileSet s q = [e] →
      EnviroAtlas.processLayers env s.priorAsInput e.files q.rect
        s.layers none [] [] = .ok res →
      res.1 ≠ [] → res.2 ≠ [] →
      ∃ sample, (EnviroAtlas.getitem env s q).2 = .ok sample) := by
  refine ⟨?_, ?_, ?_⟩
  · intro env s q ht hne
    exact ⟨_, GlobBiomass.getitem_ok env s q ht hne⟩
  · intro env s q ht hlen
    cases hts : EnviroAtlas.tileSet s q with
    | nil => rw [hts] at hlen; exact absurd hlen (by simp)
    | cons e1 tl =>
      cases tl with
      | nil => rw [hts] at hlen; exact absurd hlen (by simp)
      | cons e2 tl2 => exact EnviroAtlas.getitem_multi env s q e1 e2 tl2 ht hts
  · intro env s q e res ht hone hres himg hmsk
    exact ⟨_, EnviroAtlas.getitem_single env s q e res ht hone hres himg hmsk⟩

/-- Witness for C1 at concrete inputs: the two-tile GlobBiomass query
returns a sample, the two-tile EnviroAtlas query raises `IndexError`,
and the one-tile EnviroAtlas query returns a sample. -/
theorem claim1_witness :
    (∃ sample, (GlobBiomass.getitem Ex.gbEnv Ex.gbState Ex.gbQ).2 =
      .ok sample) ∧
    (EnviroAtlas.getitem Ex.eaEnv Ex.eaState2 Ex.eaQ2).2 =
      .error .indexError ∧
    (∃ sample, (EnviroAtlas.getitem Ex.eaEnv Ex.eaState Ex.eaQ).2 =
      .ok sample) :=
  ⟨claim1_locate_and_sample.1 Ex.gbEnv Ex.gbState Ex.gbQ
      (by decide) (by decide),
   claim1_locate_and_sample.2.1 Ex.eaEnv Ex.eaState2 Ex.eaQ2
      (by decide) (by decide),
   claim1_locate_and_sample.2.2 Ex.eaEnv Ex.eaState Ex.eaQ
      Ex.eaEntry ([[[5]]], [[[10]]])
      (by decide) rfl rfl (by decide) (by decide)⟩

/-- C3 counterexample: `IndexError` is NOT raised exactly when the
filtered index is empty.  For a concrete two-tile EnviroAtlas instance
the filtered index is non-empty, yet `__getitem__` raises
`IndexError`. -/
theorem claim3_counterexample :
    EnviroAtlas.tileSet Ex.eaState2 Ex.eaQ2 ≠ [] ∧
    (EnviroAtlas.getitem Ex.eaEnv Ex.eaState2 Ex.eaQ2).2 =
      .error .indexError :=
  ⟨by decide, rfl⟩

/-- C3 (amended): for queries with a well-ordered time range,
`GlobBiomass.__getitem__` raises `IndexError` exactly when the filtered
index is empty, and returns a sample otherwise; `EnviroAtlas.__getitem__`
raises `IndexError` whenever the filtered index is empty or has two or
more rows, and a sample is only ever returned when it has exactly one
row — in particular no sample is ever returned for a query that
intersects nothing. -/
theorem claim3_index_error :
    (∀ (env : GlobBiomass.Env) (s : GlobBiomass.State) (q : GeoSlice),
      ¬ q.tstart > q.tstop →
      ((GlobBiomass.getitem env s q).2 = .error .indexError ↔
        GlobBiomass.tileSet s q = [])) ∧
    (∀ (env : GlobBiomass.Env) (s : GlobBiomass.State) (q : GeoSlice),
      ¬ q.tstart > q.tstop → GlobBiomass.tileSet s q ≠ [] →
      ∃ sample, (GlobBiomass.getitem env s q).2 = .ok sample) ∧
    (∀ (env : EnviroAtlas.Env) (s : EnviroAtlas.State) (q : GeoSlice),
      ¬ q.tstart > q.tstop →
      (EnviroAtlas.tileSet s q = [] ∨
        2 ≤ (EnviroAtlas.tileSet s q).length) →
      (EnviroAtlas.getitem env s q).2 = .error .indexError) ∧
    (∀ (env : EnviroAtlas.Env) (s : EnviroAtlas.State) (q : GeoSlice)
        (sample : EnviroAtlas.Sample),
      (EnviroAtlas.getitem env s q).2 = .ok sample →
      (EnviroAtlas.tileSet s q).length = 1) := by
  refine ⟨?_, ?_, ?_, ?_⟩
  · intro env s q ht
    exact GlobBiomass.getitem_error_iff env s q ht
  · intro env s q ht hne
    exact ⟨_, GlobBiomass.getitem_ok env s q ht hne⟩
  · intro env s q ht hcase
    rcases hcase with he | hlen
    · exact EnviroAtlas.getitem_empty env s q ht he
    · cases hts : EnviroAtlas.tileSet s q with
      | nil => rw [hts] at hlen; exact absurd hlen (by simp)
      | cons e1 tl =>
        cases tl with
        | nil => rw [hts] at hlen; exact absurd hlen (by simp)
        | cons e2 tl2 => exact EnviroAtlas.getitem_multi env s q e1 e2 tl2 ht hts
  · intro env s q sample h
    obtain ⟨e, res, hts, -⟩ := EnviroAtlas.getitem_ok_inv env s q sample h
    rw [hts]
    rfl

/-- Witness for C3 at concrete inputs: the empty-intersection GlobBiomass
query raises `IndexError`, and the successful one-tile EnviroAtlas query
has a one-row filtered index. -/
theorem claim3_witness :
    (GlobBiomass.getitem Ex.gbEnv Ex.gbState Ex.gbQEdge).2 =
      .error .indexError ∧
    (EnviroAtlas.tileSet Ex.eaState Ex.eaQ).length = 1 :=
  ⟨(claim3_index_error.1 Ex.gbEnv Ex.gbState Ex.gbQEdge (by decide)).mpr
      (by decide),
   claim3_index_error.2.2.2 Ex.eaEnv Ex.eaState Ex.eaQ
      ⟨[[5]], [[10]], "epsg:3857", Ex.eaQ⟩ rfl⟩

/-- C8: `__getitem__` does not modify the dataset state — the embedded
methods write no attribute of `self`, so the state they pass back is
their input state — and with `transforms = None` the returned sample's
`crs` field is the dataset CRS and its `bounds` field is the query
exactly as given, for both dataset classes. -/
theorem claim8_frame :
    (∀ (env : GlobBiomass.Env) (s : GlobBiomass.State) (q : GeoSlice),
      (GlobBiomass.getitem env s q).1 = s) ∧
    (∀ (env : EnviroAtlas.Env) (s : EnviroAtlas.State) (q : GeoSlice),
      (EnviroAtlas.getitem env s q).1 = s) ∧
    (∀ (env : GlobBiomass.Env) (s : GlobBiomass.State) (q : GeoSlice)
        (sample : GlobBiomass.Sample),
      s.transforms = none →
      (GlobBiomass.getitem env s q).2 = .ok sample →
      sample.crs = s.crs ∧ sample.bounds = q) ∧
    (∀ (env : EnviroAtlas.Env) (s : EnviroAtlas.State) (q : GeoSlice)
        (sample : EnviroAtlas.Sample),
      s.transforms = none →
      (EnviroAtlas.getitem env s q).2 = .ok sample →
      sample.crs = s.crs ∧ sample.bounds = q) := by
  refine ⟨fun _ _ _ => rfl, fun _ _ _ => rfl, ?_, ?_⟩
  · intro env s q sample htr h
    by_cases ht : q.tstart > q.tstop
    · have : (GlobBiomass.getitem env s q).2 = .error .valueError := by
        show (if q.tstart > q.tstop then (.error .valueError :
          Except PyErr GlobBiomass.Sample) else _) = _
        rw [if_pos ht]
      rw [this] at h
      exact absurd h (by simp)
    · by_cases hne : GlobBiomass.tileSet s q = []
      · rw [(GlobBiomass.getitem_error_iff env s q ht).mpr hne] at h
        exact absurd h (by simp)
      · rw [GlobBiomass.getitem_ok env s q ht hne, htr] at h
        injection h with h2
        rw [← h2]
        exact ⟨rfl, rfl⟩
  · intro env s q sample htr h
    obtain ⟨e, res, -, -, -, -, hs⟩ :=
      EnviroAtlas.getitem_ok_inv env s q sample h
    rw [hs, htr]
    exact ⟨rfl, rfl⟩

/-- Witness for C8 at concrete inputs: the concrete successful queries
return samples whose `crs` and `bounds` fields match the state and the
query. -/
theorem claim8_witness :
    (GlobBiomass.getitem Ex.gbEnv Ex.gbState Ex.gbQ).1 = Ex.gbState ∧
    (EnviroAtlas.getitem Ex.eaEnv Ex.eaState Ex.eaQ).1 = Ex.eaState ∧
    ((⟨[[1, 2], [3, 4]], "EPSG:4326", Ex.gbQ⟩ : GlobBiomass.Sample).crs =
      Ex.gbState.crs ∧
     (⟨[[1, 2], [3, 4]], "EPSG:4326", Ex.gbQ⟩ :
      GlobBiomass.Sample).bounds = Ex.gbQ) ∧
    ((⟨[[5]], [[10]], "epsg:3857", Ex.eaQ⟩ : EnviroAtlas.Sample).crs =
      Ex.eaState.crs ∧
     (⟨[[5]], [[10]], "epsg:3857", Ex.eaQ⟩ :
      EnviroAtlas.Sample).bounds = Ex.eaQ) :=
  ⟨claim8_frame.1 Ex.gbEnv Ex.gbState Ex.gbQ,
   claim8_frame.2.1 Ex.eaEnv Ex.eaState Ex.eaQ,
   claim8_frame.2.2.1 Ex.gbEnv Ex.gbState Ex.gbQ
      ⟨[[1, 2], [3, 4]], "EPSG:4326", Ex.gbQ⟩ rfl rfl,
   claim8_frame.2.2.2 Ex.eaEnv Ex.eaState Ex.eaQ
      ⟨[[5]], [[10]], "epsg:3857", Ex.eaQ⟩ rfl rfl⟩

namespace EnviroAtlas

/-- Single-layer routing reads only the raster contents: it does not
consult the coordinate transformers. -/
theorem routeLayer_env_indep (env env' : Env) (p : Bool) (files : Files)
    (g : Rect) (l : String) (hr : env'.readMask = env.readMask) :
    routeLayer env p files g l = routeLayer env' p files g l := by
  unfold routeLayer
  rw [hr]

/-- Layer routing over a whole list of layers does not consult the
coordinate transformers. -/
theorem routeAll_env_indep (env env' : Env) (p : Bool) (files : Files)
    (g : Rect) (hr : env'.readMask = env.readMask) :
    ∀ layers : List String,
      routeAll env p files g layers = routeAll env' p files g layers := by
  intro layers
  induction layers with
  | nil => rfl
  | cons l rest ih =>
    unfold routeAll
    rw [routeLayer_env_indep env env' p files g l hr, ih]

end EnviroAtlas

/-- C4 counterexample: each layer is NOT cropped to the query box
transformed into that layer's own CRS.  In a concrete instance whose
`naip` file is in `epsg:26917` and whose `lc` file is in `epsg:26918`,
the returned `lc` mask channel is `[[1]]` — the remap of the raster
cropped to the geometry transformed with the FIRST layer's (`naip`'s)
transformer — while cropping the `lc` raster to the envelope transformed
into its own CRS, as the claim states, would give `[[2]]`. -/
theorem claim4_counterexample :
    (EnviroAtlas.getitem Ex.c4Env Ex.eaState Ex.eaQ).2 =
      .ok ⟨[[5]], [[1]], "epsg:3857", Ex.eaQ⟩ ∧
    EnviroAtlas.mapLC
      (specPerLayerCrop Ex.c4Env Ex.eaFiles Ex.eaQ.rect "lc") = .ok [[2]] ∧
    ([[1]] : Tensor) ≠ [[2]] :=
  ⟨rfl, rfl, by decide⟩

/-- C4 (amended): in `EnviroAtlas.__getitem__` the query box is
transformed out of EPSG:3857 only once, by the first requested layer,
using the precomputed transformer for that layer's file CRS (`KeyError`
if there is none); the envelope of that single transformed box is then
reused as the crop geometry for every layer — the loop never consults the
transformers again.  The claim's per-layer reprojection holds only when
all of the tile's files share the first layer's CRS. -/
theorem claim4_single_transform :
    (∀ (env : EnviroAtlas.Env) (p : Bool) (files : EnviroAtlas.Files)
        (qbox : Rect) (l : String) (rest : List String)
        (img msk : List Tensor),
      EnviroAtlas.pTransformerKeys.contains
        (env.fileCRS (files.get l)) = true →
      EnviroAtlas.processLayers env p files qbox (l :: rest) none img msk =
        EnviroAtlas.processLayers env p files qbox (l :: rest)
          (some (env.transformEnvelope (env.fileCRS (files.get l)) qbox))
          img msk) ∧
    (∀ (env env' : EnviroAtlas.Env) (p : Bool) (files : EnviroAtlas.Files)
        (qbox g : Rect) (layers : List String) (img msk : List Tensor),
      env'.fileCRS = env.fileCRS → env'.readMask = env.readMask →
      EnviroAtlas.processLayers env p files qbox layers (some g) img msk =
        EnviroAtlas.processLayers env' p files qbox layers (some g)
          img msk) := by
  refine ⟨?_, ?_⟩
  · intro env p files qbox l rest img msk hkey
    exact EnviroAtlas.processLayers_none_eq_first env p files qbox l rest
      img msk hkey
  · intro env env' p files qbox g layers img msk _ hr
    rw [EnviroAtlas.processLayers_some_eq, EnviroAtlas.processLayers_some_eq,
      EnviroAtlas.routeAll_env_indep env env' p files g hr layers]

/-- Witness for C4 at concrete inputs: for the one-tile instance, the
loop started with no geometry equals the loop started at the envelope
computed from the first layer's CRS, and the result is unchanged when
the transformers are replaced wholesale. -/
theorem claim4_witness :
    EnviroAtlas.processLayers Ex.eaEnv false Ex.eaFiles Ex.eaQ.rect
      ["naip", "lc"] none [] [] =
      EnviroAtlas.processLayers Ex.eaEnv false Ex.eaFiles Ex.eaQ.rect
        ["naip", "lc"]
        (some (Ex.eaEnv.transformEnvelope
          (Ex.eaEnv.fileCRS (Ex.eaFiles.get "naip")) Ex.eaQ.rect)) [] [] ∧
    EnviroAtlas.processLayers Ex.eaEnv false Ex.eaFiles Ex.eaQ.rect
      ["naip", "lc"] (some ⟨0, 0, 10, 10⟩) [] [] =
      EnviroAtlas.processLayers
        ⟨Ex.eaEnv.fileCRS, fun _ r => ⟨r.xmin + 7, r.ymin, r.xmax, r.ymax⟩,
          Ex.eaEnv.readMask⟩
        false Ex.eaFiles Ex.eaQ.rect ["naip", "lc"]
        (some ⟨0, 0, 10, 10⟩) [] [] :=
  ⟨claim4_single_transform.1 Ex.eaEnv false Ex.eaFiles Ex.eaQ.rect
      "naip" ["lc"] [] [] rfl,
   claim4_single_transform.2 Ex.eaEnv
      ⟨Ex.eaEnv.fileCRS, fun _ r => ⟨r.xmin + 7, r.ymin, r.xmax, r.ymax⟩,
        Ex.eaEnv.readMask⟩
      false Ex.eaFiles Ex.eaQ.rect ⟨0, 0, 10, 10⟩ ["naip", "lc"] [] []
      rfl rfl⟩

/-- C5 counterexample: the EnviroAtlas half of the claim fails for the
`nlcd` layer.  In a concrete successful call with
`layers = ['naip', 'nlcd', 'lc']`, whose `nlcd` raster holds the pixel 7,
the returned image tensor is `[[5]]` — only the `naip` channel — not the
concatenation `[[5], [7]]` of the requested layers in request order: the
branch structure of `__getitem__` never routes `'nlcd'` anywhere. -/
theorem claim5_counterexample :
    (EnviroAtlas.getitem Ex.c5Env Ex.c5State Ex.eaQ).2 =
      .ok ⟨[[5]], [[10]], "epsg:3857", Ex.eaQ⟩ ∧
    Ex.c5Env.readMask (Ex.eaFiles.get "nlcd") Ex.eaQ.rect = [[7]] ∧
    ([[5]] : Tensor) ≠ [[5], [7]] :=
  ⟨rfl, rfl, by decide⟩

/-- C5 (amended): for every successful `GlobBiomass.__getitem__` call
(with `transforms = None`) the sample's mask is the estimate mosaic of
the matched files concatenated, estimate first, with the standard-error
mosaic of the corresponding `'_err.tif'` files.  For EnviroAtlas, the
image and mask tensors concatenate, in request order, the per-layer
contributions at the fixed crop geometry — image layers to `image`,
prior layers to `image` or `mask` according to `prior_as_input`, `lc`
remapped to `mask` — except that a requested `'nlcd'` layer is read but
contributes to neither tensor. -/
theorem claim5_stitching :
    (∀ (env : GlobBiomass.Env) (s : GlobBiomass.State) (q : GeoSlice),
      ¬ q.tstart > q.tstop → s.transforms = none →
      GlobBiomass.tileSet s q ≠ [] →
      (GlobBiomass.getitem env s q).2 = .ok
        ⟨GlobBiomass.mergeFiles env
            ((GlobBiomass.tileSet s q).map GlobBiomass.Entry.filepath) q ++
          GlobBiomass.mergeFiles env
            (((GlobBiomass.tileSet s q).map GlobBiomass.Entry.filepath).map
              GlobBiomass.errPath) q,
          s.crs, q⟩) ∧
    (∀ (env : EnviroAtlas.Env) (s : EnviroAtlas.State) (q : GeoSlice)
        (e : EnviroAtlas.Entry) (l : String) (rest : List String)
        (cs : List Tensor × List Tensor),
      ¬ q.tstart > q.tstop → s.transforms = none →
      EnviroAtlas.tileSet s q = [e] →
      s.layers = l :: rest →
      EnviroAtlas.pTransformerKeys.contains
        (env.fileCRS (e.files.get l)) = true →
      EnviroAtlas.routeAll env s.priorAsInput e.files
        (env.transformEnvelope (env.fileCRS (e.files.get l)) q.rect)
        s.layers = .ok cs →
      cs.1 ≠ [] → cs.2 ≠ [] →
      (EnviroAtlas.getitem env s q).2 =
        .ok ⟨cs.1.flatten, cs.2.flatten, s.crs, q⟩) ∧
    (∀ (env : EnviroAtlas.Env) (p : Bool) (files : EnviroAtlas.Files)
        (g : Rect),
      EnviroAtlas.routeLayer env p files g "nlcd" = .ok ([], [])) ∧
    (∀ (env : EnviroAtlas.Env) (p : Bool) (files : EnviroAtlas.Files)
        (g : Rect) (l : String) (rest : List String)
        (c r : List Tensor × List Tensor),
      EnviroAtlas.routeLayer env p files g l = .ok c →
      EnviroAtlas.routeAll env p files g rest = .ok r →
      EnviroAtlas.routeAll env p files g (l :: rest) =
        .ok (c.1 ++ r.1, c.2 ++ r.2)) := by
  refine ⟨?_, ?_, ?_, ?_⟩
  · intro env s q ht htr hne
    rw [GlobBiomass.getitem_ok env s q ht hne, htr]
    rfl
  · intro env s q e l rest cs ht htr hone hlay hkey hroute h1 h2
    have hproc : EnviroAtlas.processLayers env s.priorAsInput e.files
        q.rect s.layers none [] [] = .ok (cs.1, cs.2) := by
      rw [hlay]
      rw [EnviroAtlas.processLayers_none_eq_first env s.priorAsInput
        e.files q.rect l rest [] [] hkey]
      rw [EnviroAtlas.processLayers_some_eq]
      rw [← hlay, hroute]
      simp
    have := EnviroAtlas.getitem_single env s q e (cs.1, cs.2) ht hone
      hproc h1 h2
    rw [this, htr]
    rfl
  · intro env p files g
    rfl
  · intro env p files g l rest c r hc hr
    unfold EnviroAtlas.routeAll
    rw [hc, hr]

/-- Witness for C5 at concrete inputs: the two-tile GlobBiomass sample's
mask is estimate mosaic then error mosaic, and the EnviroAtlas call with
`layers = ['naip', 'nlcd', 'lc']` returns the concatenations of the
routed contributions (with `nlcd` contributing nothing). -/
theorem claim5_witness :
    (GlobBiomass.getitem Ex.gbEnv Ex.gbState Ex.gbQ).2 = .ok
      ⟨GlobBiomass.mergeFiles Ex.gbEnv
          ((GlobBiomass.tileSet Ex.gbState Ex.gbQ).map
            GlobBiomass.Entry.filepath) Ex.gbQ ++
        GlobBiomass.mergeFiles Ex.gbEnv
          (((GlobBiomass.tileSet Ex.gbState Ex.gbQ).map
            GlobBiomass.Entry.filepath).map GlobBiomass.errPath) Ex.gbQ,
        Ex.gbState.crs, Ex.gbQ⟩ ∧
    (EnviroAtlas.getitem Ex.c5Env Ex.c5State Ex.eaQ).2 =
      .ok ⟨([[[5]]] : List Tensor).flatten,
        ([[[10]]] : List Tensor).flatten, Ex.c5State.crs, Ex.eaQ⟩ :=
  ⟨claim5_stitching.1 Ex.gbEnv Ex.gbState Ex.gbQ (by decide) rfl (by decide),
   claim5_stitching.2.1 Ex.c5Env Ex.c5State Ex.eaQ Ex.eaEntry
      "naip" ["nlcd", "lc"] ([[[5]]], [[[10]]])
      (by decide) rfl rfl rfl rfl rfl (by decide) (by decide)⟩

/-- C10: when the `lc` layer is requested (and every requested prior
layer is routed to the image side, so that the mask channels all come
from `lc`), every pixel of the returned mask of a successful
`EnviroAtlas.__getitem__` call (with `transforms = None`) lies in
`[0, 10]`: the raw raster values are remapped through
`raw_enviroatlas_to_idx_map`, whose 93 entries are all at most 10, the
11 sequential high-resolution class indices. -/
theorem claim10_lc_range :
    EnviroAtlas.raw_enviroatlas_to_idx_map.length = 93 ∧
    (∀ v ∈ EnviroAtlas.raw_enviroatlas_to_idx_map, v ≤ 10) ∧
    (∀ (env : EnviroAtlas.Env) (s : EnviroAtlas.State) (q : GeoSlice)
        (sample : EnviroAtlas.Sample),
      s.transforms = none →
      (∀ l ∈ s.layers,
        EnviroAtlas.valid_prior_layers.contains l = true →
        s.priorAsInput = true) →
      (EnviroAtlas.getitem env s q).2 = .ok sample →
      ∀ c ∈ sample.mask, ∀ p ∈ c, p ≤ 10) := by
  refine ⟨rfl, by decide, ?_⟩
  intro env s q sample htr hp h
  obtain ⟨e, res, -, hproc, -, -, hs⟩ :=
    EnviroAtlas.getitem_ok_inv env s q sample h
  have hbound := EnviroAtlas.processLayers_mask_bound env s.priorAsInput
    e.files q.rect s.layers res hp hproc
  rw [hs, htr]
  intro c hc p hpc
  obtain ⟨t, ht, hct⟩ := List.mem_flatten.mp hc
  exact hbound t ht c hct p hpc

/-- Witness for C10 at concrete inputs: the returned mask `[[10]]` of the
one-tile query with `layers = ['naip', 'lc']` has all pixels at most
10. -/
theorem claim10_witness :
    ∀ c ∈ (⟨[[5]], [[10]], "epsg:3857", Ex.eaQ⟩ :
      EnviroAtlas.Sample).mask, ∀ p ∈ c, p ≤ 10 :=
  claim10_lc_range.2.2 Ex.eaEnv Ex.eaState Ex.eaQ
    ⟨[[5]], [[10]], "epsg:3857", Ex.eaQ⟩ rfl (by decide) rfl

end TorchGeo
